import Mathlib

/-!
Shallow embedding of the Luanet session component of `luanet/lua`
(core: `JoinLuanet`, `SendQuicMsg`, `ReadQuicMsg`, `CmdHandlers`,
`HeartBeat`, and the diagnostic probes `ipv4Test`/`ipv6Test`).

External effects (QUIC dial/open, gob encode/decode, signing, the
filesystem, HTTP lookups) are represented by an oracle (`World`) that
fixes the outcome of the n-th occurrence of each primitive operation,
and a state (`St`) that records the observable footprint of a run:
the current stream, the envelopes handed to the encoder, the files and
directories written, the log lines emitted, and how many times
`JoinLuanet` ran.
-/

set_option maxRecDepth 16384

namespace Luanet

/-- Service tags of the wire protocol.  Modelled from the spec: the tag
constants live in the external `lua-proto` package (not under `src/`);
only their distinctness matters, so they are fixed as distinct numbers,
with `0` reserved for the zero value of a `Proto`. -/
def JoinService : Nat := 1

/-- Heartbeat service tag (see `JoinService`). -/
def HeartBeatService : Nat := 2

/-- Speed-test service tag (see `JoinService`). -/
def SpeedTestService : Nat := 3

/-- Observed address info returned by the IP-info endpoint (`proto.Ip`).
Modelled from the spec: the field layout lives in the external
`lua-proto` package; the core never inspects it, so it is kept abstract
as a raw string. -/
structure Ip where
  Raw : String := ""
deriving DecidableEq, Repr, Inhabited

/-- PEM pair carried per IP in a Join Response (`cert.Pems`). -/
structure Pems where
  Privkey : String
  Cert : String
deriving DecidableEq, Repr, Inhabited

/-- Certificate entry of a Join Response (`proto.Cert`-like wrapper). -/
structure Cert where
  Pems : Pems
deriving DecidableEq, Repr, Inhabited

/-- Model signature: the identity provider signs arbitrary bytes.
Modelled from the spec: the signature scheme is supplied by the external
identity provider (libp2p private key, not under `src/`); it is modelled
as a record of the signing key and the exact signed bytes, with
verification succeeding precisely on that key and those bytes. -/
structure Signature where
  key : String
  msg : String
deriving DecidableEq, Repr, Inhabited

/-- Produce a signature with key `key` over bytes `msg` (model of
`n.PrivateKey.Sign(bytes)`). -/
def sign (key msg : String) : Signature :=
  { key := key, msg := msg }

/-- Verify a signature against a key over bytes `msg` (model of public
key verification for the scheme of `sign`). -/
def verify (key : String) (s : Signature) (msg : String) : Bool :=
  s.key == key && s.msg == msg

/-- Join Request payload (`proto.JoinReq`). -/
structure JoinReq where
  Address : String
  Ipv4 : Ip
  Ipv6 : Ip
  Signature : Signature
  Expires : Int
deriving DecidableEq, Repr, Inhabited

/-- Join Response payload (`proto.JoinRes`); `Certs` is the ip-keyed
certificate map, linearized as an association list. -/
structure JoinRes where
  Success : Bool
  Message : String
  Certs : List (String × Cert)
deriving DecidableEq, Repr, Inhabited

/-- Heartbeat statistics (`proto.Stats`); byte totals as integers,
rates as rationals (Go `float64` carrying exact small values here). -/
structure Stats where
  Storage : Int
  In : Int
  Out : Int
  Ingress : ℚ
  Egress : ℚ
deriving DecidableEq, Repr, Inhabited

/-- Heartbeat request payload (`proto.HeartBeatReq`). -/
structure HeartBeatReq where
  Stats : Stats
deriving DecidableEq, Repr, Inhabited

/-- Tag-typed payload of an envelope (`proto.Proto.Data`); `nil` is the
Go nil interface. -/
inductive Payload where
  | nil : Payload
  | joinReq : JoinReq → Payload
  | joinRes : JoinRes → Payload
  | heartBeat : HeartBeatReq → Payload
deriving DecidableEq, Repr, Inhabited

/-- Wire envelope (`proto.Proto`): a service tag plus a payload. -/
structure Proto where
  Service : Nat
  Data : Payload
deriving DecidableEq, Repr, Inhabited

/-- The zero value of `Proto` (what a failed gob decode leaves behind). -/
def Proto.zero : Proto :=
  { Service := 0, Data := .nil }

/-- Expiry computation of the join handshake:
`expires := time.Now().Unix() + cfg.Luanet.ExpiresTime`. -/
def joinExpires (now expiresTime : Int) : Int :=
  now + expiresTime

/-- The exact byte string signed during join:
`n.Identity.String() + "." + strconv.FormatInt(expires, 10)`. -/
def joinSignedBytes (id : String) (expires : Int) : String :=
  id ++ "." ++ toString expires

/-- A filesystem path as the component list handed to `filepath.Join`. -/
abbrev Path := List String

/-- The per-ip certificate directory
`filepath.Join(n.ConfigRoot, "certs", ip)`. -/
def certDir (configRoot ip : String) : Path :=
  [configRoot, "certs", ip]

/-- First-match association lookup in the written-file record. -/
def fsLookup : List (Path × String) → Path → Option String
  | [], _ => none
  | (p, v) :: rest, q => if p = q then some v else fsLookup rest q

/-- Bandwidth totals as returned by `n.Reporter.GetBandwidthTotals()`
(libp2p `metrics.Stats`). -/
structure BandwidthTotals where
  TotalIn : Int
  TotalOut : Int
  RateIn : ℚ
  RateOut : ℚ
deriving DecidableEq, Repr, Inhabited

/-- Outcome oracle for the primitive effects: the n-th occurrence of
each operation gets its result from the corresponding function. -/
structure World where
  configOk : Nat → Bool
  dialOk : Nat → Bool
  openOk : Nat → Bool
  signOk : Nat → Bool
  encodeOk : Nat → Bool
  readMsg : Nat → Option Proto
  mkdirOk : Nat → Bool
  writeOk : Nat → Bool
  ipInfo : String → Ip
  now : Int
  expiresTime : Int
  identity : String
  privKey : String
  configRoot : String

/-- Observable footprint of a run: current stream, operation counters,
filesystem record, logs, encode trace and join count. -/
structure St where
  stream : Option Nat
  nextStream : Nat
  nConfig : Nat
  nDial : Nat
  nOpen : Nat
  nSign : Nat
  nEncode : Nat
  nRead : Nat
  nMkdir : Nat
  nWrite : Nat
  dirs : List Path
  fs : List (Path × String)
  logs : List String
  encoded : List Proto
  joins : Nat
deriving DecidableEq, Repr

/-- A fresh state: no stream, all counters zero, nothing recorded. -/
def St.init : St :=
  { stream := none, nextStream := 0, nConfig := 0, nDial := 0, nOpen := 0,
    nSign := 0, nEncode := 0, nRead := 0, nMkdir := 0, nWrite := 0,
    dirs := [], fs := [], logs := [], encoded := [], joins := 0 }

/-- What `JoinLuanet` hands back: a response, a Go error, or a panic of
the `msg.Data.(proto.JoinRes)` type assertion. -/
inductive JoinResult where
  | ok : JoinRes → JoinResult
  | err : String → JoinResult
  | panicked : JoinResult
deriving DecidableEq, Repr, Inhabited

/-- Log line of the `SendQuicMsg` failure path. -/
def sendFailLog : String := "Failed to send quic message"

/-- Log line of the `ReadQuicMsg` failure path. -/
def readFailLog : String := "Failed to read quic message"

/-- Model of `ReadQuicMsg`: decode one envelope from the current stream; on
decode/transport error, log and return the zero envelope.  No rejoin
happens on this path. -/
def ReadQuicMsg (w : World) (st : St) : St × Proto :=
  match w.readMsg st.nRead with
  | some m => ({ st with nRead := st.nRead + 1 }, m)
  | none =>
      ({ st with nRead := st.nRead + 1, logs := st.logs ++ [readFailLog] },
       Proto.zero)

/-- One encode attempt of `SendQuicMsg`: on success return the updated
state; on failure log and run the supplied rejoin continuation
(`n.JoinLuanet()` with its result discarded). -/
def sendStep (rejoin : St → Option St) (w : World) (st : St) (msg : Proto) :
    Option St :=
  let ok := w.encodeOk st.nEncode
  let st1 := { st with nEncode := st.nEncode + 1, encoded := st.encoded ++ [msg] }
  if ok then some st1
  else rejoin { st1 with logs := st1.logs ++ [sendFailLog] }

/-- The Join Request envelope built by `JoinLuanet` (it depends only on
the oracle: identity, config expiry, clock, observed addresses). -/
def joinMessage (w : World) : Proto :=
  { Service := JoinService,
    Data := .joinReq
      { Address := w.identity,
        Ipv4 := w.ipInfo "ip4",
        Ipv6 := w.ipInfo "ip6",
        Signature := sign w.privKey
          (joinSignedBytes w.identity (joinExpires w.now w.expiresTime)),
        Expires := joinExpires w.now w.expiresTime } }

/-- Certificate persistence loop of `JoinLuanet`: for each `(ip, cert)`
entry, `MkdirAll` the per-ip directory (failure returns the error),
write `private.pem` (failure returns the error), then write `cert.pem`
with the error discarded (`_ = ioutil.WriteFile(...)`). -/
def writeCertsLoop (w : World) (jr : JoinRes) :
    St → List (String × Cert) → St × JoinResult
  | st, [] => (st, .ok jr)
  | st, (ip, cert) :: rest =>
    let dir := certDir w.configRoot ip
    let mOk := w.mkdirOk st.nMkdir
    let st1 := { st with nMkdir := st.nMkdir + 1 }
    if mOk then
      let st2 := { st1 with dirs := st1.dirs ++ [dir] }
      let w1 := w.writeOk st2.nWrite
      let st3 := { st2 with nWrite := st2.nWrite + 1 }
      if w1 then
        let st4 := { st3 with fs := (dir ++ ["private.pem"], cert.Pems.Privkey) :: st3.fs }
        let w2 := w.writeOk st4.nWrite
        let fs5 := if w2 then (dir ++ ["cert.pem"], cert.Pems.Cert) :: st4.fs else st4.fs
        let st5 := { st4 with nWrite := st4.nWrite + 1, fs := fs5 }
        writeCertsLoop w jr st5 rest
      else (st3, .err "write private.pem error")
    else (st1, .err "mkdir error")

/-- One `JoinLuanet` body, parameterized by the rejoin continuation used
by the embedded `SendQuicMsg` on encode failure.  Follows the source
order: config, dial, open stream, compute expiry and signed bytes, sign,
query IP info, build the Join Request, swap `n.Stream` to the new
stream, send, read, check `Success`, persist certificates. -/
def joinAttempt (rejoin : St → Option St) (w : World) (st : St) :
    Option (St × JoinResult) :=
  let st := { st with joins := st.joins + 1 }
  let cOk := w.configOk st.nConfig
  let st := { st with nConfig := st.nConfig + 1 }
  if cOk then
    let dOk := w.dialOk st.nDial
    let st := { st with nDial := st.nDial + 1 }
    if dOk then
      let oOk := w.openOk st.nOpen
      let streamId := st.nextStream
      let st := { st with nOpen := st.nOpen + 1, nextStream := st.nextStream + 1 }
      if oOk then
        let sOk := w.signOk st.nSign
        let st := { st with nSign := st.nSign + 1 }
        if sOk then
          let message := joinMessage w
          let st := { st with stream := some streamId }
          match sendStep rejoin w st message with
          | none => none
          | some st1 =>
            let (st2, msg) := ReadQuicMsg w st1
            match msg.Data with
            | .joinRes joinRes =>
              if joinRes.Success then
                some (writeCertsLoop w joinRes st2 joinRes.Certs)
              else
                some (st2, .err ("Failed to join lua network: " ++ joinRes.Message))
            | _ => some (st2, .panicked)
        else some (st, .err "sign error")
      else some (st, .err "open stream error")
    else some (st, .err "dial error")
  else some (st, .err "config error")

/-- Model of `JoinLuanet`, with fuel bounding the nested-rejoin recursion depth
(`SendQuicMsg` failure inside a join triggers another full join).
`none` means the recursion exhausted the fuel.  A `JoinResult.panicked`
outcome marks a run in which the Go program panics at the
`msg.Data.(proto.JoinRes)` type assertion and unwinds instead of
returning; the rejoin continuation mirrors the source text
(`n.JoinLuanet()` with the result discarded), so theorems that conclude
a normal return must restrict the read oracle to `joinRes` payloads to
keep the panic path out of their domain. -/
def JoinLuanet : Nat → World → St → Option (St × JoinResult)
  | 0, _, _ => none
  | fuel + 1, w, st =>
      joinAttempt (fun st2 => (JoinLuanet fuel w st2).map Prod.fst) w st

/-- Model of `SendQuicMsg`: encode the envelope onto the current stream; on
failure log and synchronously call `JoinLuanet`, discarding its result
(the function itself returns no error to its caller).  The discarded
result may be the `JoinResult.panicked` marker: in Go that run panics
through `SendQuicMsg` rather than returning, so theorems about this
function's normal completion must exclude that path by hypothesis. -/
def SendQuicMsg (fuel : Nat) (w : World) (st : St) (msg : Proto) : Option St :=
  sendStep (fun st2 => (JoinLuanet fuel w st2).map Prod.fst) w st msg

/-- Heartbeat statistics built each tick: `Storage` is the constant `0`,
the rest copies the bandwidth totals. -/
def heartBeatStats (t : BandwidthTotals) : Stats :=
  { Storage := 0, In := t.TotalIn, Out := t.TotalOut,
    Ingress := t.RateIn, Egress := t.RateOut }

/-- The Heartbeat Envelope built each tick of `HeartBeat`. -/
def heartBeatMessage (t : BandwidthTotals) : Proto :=
  { Service := HeartBeatService, Data := .heartBeat { Stats := heartBeatStats t } }

/-- The `HeartBeat` loop over a finite tick sequence: each tick reads
the bandwidth totals, builds the envelope and sends it. -/
def heartBeatLoop (fuel : Nat) (w : World) :
    St → List BandwidthTotals → Option St
  | st, [] => some st
  | st, t :: rest =>
      match SendQuicMsg fuel w st (heartBeatMessage t) with
      | none => none
      | some st1 => heartBeatLoop fuel w st1 rest

/-- Response payload chosen by the `CmdHandlers` switch for a service
tag.  The single `case proto.SpeedTestService` has its entire body
commented out in the source, so no branch ever sets `Data`. -/
def cmdResponseData (service : Nat) : Payload :=
  if service = SpeedTestService then
    Payload.nil
  else
    Payload.nil

/-- One tick of `CmdHandlers`: read an envelope, build a response with
the same tag and the switch-selected payload, and send it only when the
payload is non-nil.  Returns the state and the response sent, if any. -/
def cmdHandleTick (fuel : Nat) (w : World) (st : St) :
    Option (St × Option Proto) :=
  let (st1, msg) := ReadQuicMsg w st
  let message : Proto := { Service := msg.Service, Data := cmdResponseData msg.Service }
  if message.Data = Payload.nil then
    some (st1, none)
  else
    (SendQuicMsg fuel w st1 message).map (fun st2 => (st2, some message))

/-- Reachability probe result (`proto.IpTest` / the `IpTest` JSON shape:
`{ip, swarm, gateway}`). -/
structure IpTest where
  Ip : String
  Swarm : Bool
  Gateway : Bool
deriving DecidableEq, Repr, Inhabited

/-- The zero `IpTest`: both ports reported closed. -/
def IpTest.zero : IpTest :=
  { Ip := "", Swarm := false, Gateway := false }

/-- Outcome of one `http.Get` + JSON decode against a probe endpoint. -/
inductive HttpGet (α : Type) where
  | connErr : HttpGet α
  | decodeErr : HttpGet α
  | ok : α → HttpGet α
deriving DecidableEq, Repr

/-- Whether an HTTP lookup failed (connection error, timeout, or
malformed body). -/
def HttpGet.failed {α : Type} : HttpGet α → Bool
  | .connErr => true
  | .decodeErr => true
  | .ok _ => false

/-- Model of `ipv4Test` of the `node` package: query the v4 probe endpoint; any
failure logs a warning and returns the zero `IpTest`; on success warn
about each closed port.  Returns the result and the warnings logged. -/
def ipv4Test : HttpGet IpTest → IpTest × List String
  | .connErr => (IpTest.zero, ["Failed to check ipv4 port forwarding."])
  | .decodeErr => (IpTest.zero, ["Failed to decode ipv4 port forwarding data."])
  | .ok t =>
      (t, (if t.Swarm then [] else ["[Ipv4] Swarm port 4001 is not opened to the internet."])
          ++ (if t.Gateway then [] else ["[Ipv4] Gateway port 443 is not opened to the internet."]))

/-- Model of `ipv6Test` of the `node` package (v6 analogue of `ipv4Test`). -/
def ipv6Test : HttpGet IpTest → IpTest × List String
  | .connErr => (IpTest.zero, ["Failed to check ipv6 port forwarding."])
  | .decodeErr => (IpTest.zero, ["Failed to decode ipv6 port forwarding data."])
  | .ok t =>
      (t, (if t.Swarm then [] else ["[Ipv6] Swarm port 4001 is not opened to the internet."])
          ++ (if t.Gateway then [] else ["[Ipv6] Gateway port 443 is not opened to the internet."]))

/-- The command-level `ipv4Test` of the `test` command (`part_000`):
same queries, but it reduces the result to `Swarm && Gateway` and
returns `false` on any failure. -/
def ipv4TestCmd : HttpGet IpTest → Bool × List String
  | .connErr => (false, ["Failed to check ipv4 port forwarding."])
  | .decodeErr => (false, ["Failed to decode ipv4 port forwarding data."])
  | .ok t =>
      (t.Swarm && t.Gateway,
       (if t.Swarm then [] else ["[Ipv4] Swarm port 4001 is not opened to the internet."])
       ++ (if t.Gateway then [] else ["[Ipv4] Gateway port 443 is not opened to the internet."]))

/-- The port portion of `NodeTest`: run both probes and record them
under keys `v4` and `v6`; no error is ever raised. -/
def nodeTestPorts (r4 r6 : HttpGet IpTest) : List (String × IpTest) :=
  [("v4", (ipv4Test r4).1), ("v6", (ipv6Test r6).1)]

/-! ### Concrete environments used by witnesses and counterexamples -/

/-- A benign oracle: every primitive operation succeeds and every read
yields a successful, certificate-free Join Response. -/
def wBase : World :=
  { configOk := fun _ => true, dialOk := fun _ => true, openOk := fun _ => true,
    signOk := fun _ => true, encodeOk := fun _ => true,
    readMsg := fun _ => some
      { Service := JoinService,
        Data := .joinRes { Success := true, Message := "", Certs := [] } },
    mkdirOk := fun _ => true, writeOk := fun _ => true,
    ipInfo := fun _ => {}, now := 0, expiresTime := 0, identity := "id",
    privKey := "k", configRoot := "root" }

/-- A non-join application envelope (a bare heartbeat-tagged message). -/
def env0 : Proto :=
  { Service := HeartBeatService, Data := .nil }

/-- Oracle whose first two encode attempts fail and whose later ones
succeed (so the rejoin triggered by a failed send itself fails to send
its join request once, and recovers on the nested rejoin). -/
def wTwoEncodeFail : World :=
  { wBase with encodeOk := fun n => decide (2 ≤ n) }

/-- Oracle where every encode fails and every dial fails: a failed send
triggers a rejoin that itself fails at the dial step. -/
def wDialFail : World :=
  { wBase with encodeOk := fun _ => false, dialOk := fun _ => false }

/-- The state left by the failure branch of one encode attempt: counter
bumped, envelope recorded, failure logged (the state `SendQuicMsg` hands
to `JoinLuanet`). -/
def sendFailSt (st : St) (msg : Proto) : St :=
  { st with
    nEncode := st.nEncode + 1,
    encoded := st.encoded ++ [msg],
    logs := st.logs ++ [sendFailLog] }

/-! ### Helper lemmas -/

/-- Frame property: `ReadQuicMsg` touches only the read counter and the log: the join
count, the encode trace and the current stream are unchanged. -/
theorem ReadQuicMsg_frame (w : World) (st : St) :
    (ReadQuicMsg w st).1.joins = st.joins ∧
    (ReadQuicMsg w st).1.encoded = st.encoded ∧
    (ReadQuicMsg w st).1.stream = st.stream ∧
    (ReadQuicMsg w st).1.nRead = st.nRead + 1 ∧
    ∃ tail, (ReadQuicMsg w st).1.logs = st.logs ++ tail := by
  cases h : w.readMsg st.nRead <;>
    simp [ReadQuicMsg, h]

/-- The certificate-persistence loop touches only the filesystem record
and the mkdir/write counters. -/
theorem writeCertsLoop_frame (w : World) (jr : JoinRes) :
    ∀ (l : List (String × Cert)) (st : St),
      (writeCertsLoop w jr st l).1.joins = st.joins ∧
      (writeCertsLoop w jr st l).1.encoded = st.encoded ∧
      (writeCertsLoop w jr st l).1.logs = st.logs ∧
      (writeCertsLoop w jr st l).1.stream = st.stream ∧
      (writeCertsLoop w jr st l).1.nEncode = st.nEncode := by
  intro l
  induction l with
  | nil => intro st; simp [writeCertsLoop]
  | cons p rest ih =>
      intro st
      obtain ⟨ip, cert⟩ := p
      by_cases hm : w.mkdirOk st.nMkdir
      · by_cases h1 : w.writeOk (st.nWrite)
        · simpa [writeCertsLoop, hm, h1] using ih _
        · simp [writeCertsLoop, hm, h1]
      · simp [writeCertsLoop, hm]

/-! ### Claims -/

/-- C5: on a decode/transport error, `ReadQuicMsg` logs the failure and
returns the zero envelope; it never calls `JoinLuanet` (the join count
is untouched on every path), unlike the send path. -/
theorem C5_read_error_recovery (w : World) (st : St)
    (h : w.readMsg st.nRead = none) :
    (ReadQuicMsg w st).2 = Proto.zero ∧
    (ReadQuicMsg w st).1.logs = st.logs ++ [readFailLog] ∧
    (ReadQuicMsg w st).1.joins = st.joins ∧
    ∀ (w2 : World) (st2 : St), (ReadQuicMsg w2 st2).1.joins = st2.joins := by
  refine ⟨by simp [ReadQuicMsg, h], by simp [ReadQuicMsg, h],
    by simp [ReadQuicMsg, h], ?_⟩
  intro w2 st2
  exact (ReadQuicMsg_frame w2 st2).1

/-- Witness for C5 at a concrete always-failing decoder. -/
theorem C5_read_error_recovery_witness :
    (ReadQuicMsg { wBase with readMsg := fun _ => none } St.init).2 = Proto.zero :=
  (C5_read_error_recovery { wBase with readMsg := fun _ => none } St.init rfl).1

/-- C6: a Command Message with an unrecognized service tag produces zero
response envelopes and no error: the tick returns normally with no
response, and nothing is handed to the encoder. -/
theorem C6_unknown_command_noop (fuel : Nat) (w : World) (st : St) (msg : Proto)
    (hr : w.readMsg st.nRead = some msg) (h : msg.Service ≠ SpeedTestService) :
    cmdHandleTick fuel w st = some ((ReadQuicMsg w st).1, none) ∧
    (ReadQuicMsg w st).1.encoded = st.encoded ∧
    (ReadQuicMsg w st).1.joins = st.joins := by
  refine ⟨?_, (ReadQuicMsg_frame w st).2.1, (ReadQuicMsg_frame w st).1⟩
  simp [cmdHandleTick, ReadQuicMsg, hr, cmdResponseData]

/-- Witness for C6 at a concrete heartbeat-tagged (unrecognized) message. -/
theorem C6_unknown_command_noop_witness :
    cmdHandleTick 1 { wBase with readMsg := fun _ => some env0 } St.init =
      some ((ReadQuicMsg { wBase with readMsg := fun _ => some env0 } St.init).1, none) :=
  (C6_unknown_command_noop 1 { wBase with readMsg := fun _ => some env0 } St.init env0
    rfl (by decide)).1

/-- C8: any probe failure yields the zero result (both ports reported
closed) with no error; if both the v4 and the v6 lookup fail, the
combined `NodeTest` port map is closed for both versions, and the
command-level boolean probe also reports not-open. -/
theorem C8_failsafe_probe (r4 r6 : HttpGet IpTest)
    (h4 : r4.failed = true) (h6 : r6.failed = true) :
    (ipv4Test r4).1.Swarm = false ∧ (ipv4Test r4).1.Gateway = false ∧
    (ipv6Test r6).1.Swarm = false ∧ (ipv6Test r6).1.Gateway = false ∧
    nodeTestPorts r4 r6 = [("v4", IpTest.zero), ("v6", IpTest.zero)] ∧
    (ipv4TestCmd r4).1 = false := by
  cases r4 <;> cases r6 <;>
    simp_all [HttpGet.failed, ipv4Test, ipv6Test, ipv4TestCmd, nodeTestPorts,
      IpTest.zero]

/-- Witness for C8: both lookups time out (connection errors). -/
theorem C8_failsafe_probe_witness :
    nodeTestPorts (HttpGet.connErr) (HttpGet.connErr) =
      [("v4", IpTest.zero), ("v6", IpTest.zero)] :=
  (C8_failsafe_probe HttpGet.connErr HttpGet.connErr rfl rfl).2.2.2.2.1

/-- C9: the heartbeat statistics built each tick carry `Storage = 0`
regardless of the bandwidth totals read, and that is exactly the
snapshot placed in the emitted envelope. -/
theorem C9_heartbeat_storage_zero (t : BandwidthTotals) :
    (heartBeatStats t).Storage = 0 ∧
    (heartBeatMessage t).Data = Payload.heartBeat { Stats := heartBeatStats t } :=
  ⟨rfl, rfl⟩

/-- C4: join signs exactly `identity ++ "." ++ decimal(expires)` where
`expires = now + expiry_ttl`: for node id `Qm123` and expiry
`1700000000` the signed bytes are exactly `Qm123.1700000000`, the
resulting signature verifies over those bytes and over no other byte
string, and the Join Request envelope built by `JoinLuanet` carries
exactly that signature and expiry. -/
theorem C4_join_signature (now ttl : Int) (h : now + ttl = 1700000000) :
    joinSignedBytes "Qm123" (joinExpires now ttl) = "Qm123.1700000000" ∧
    (∀ m : String,
      verify "k" (sign "k" (joinSignedBytes "Qm123" (joinExpires now ttl))) m = true ↔
        m = "Qm123.1700000000") ∧
    ∀ (w : World), w.identity = "Qm123" → w.now = now → w.expiresTime = ttl →
      (joinMessage w).Data = Payload.joinReq
        { Address := "Qm123", Ipv4 := w.ipInfo "ip4", Ipv6 := w.ipInfo "ip6",
          Signature := sign w.privKey "Qm123.1700000000", Expires := 1700000000 } := by
  have hb : joinSignedBytes "Qm123" (joinExpires now ttl) = "Qm123.1700000000" := by
    unfold joinExpires
    rw [h]
    decide
  refine ⟨hb, ?_, ?_⟩
  · intro m
    rw [hb]
    unfold verify sign
    rw [Bool.and_eq_true]
    constructor
    · rintro ⟨-, h2⟩
      exact (beq_iff_eq.mp h2).symm
    · rintro rfl
      exact ⟨beq_iff_eq.mpr rfl, beq_iff_eq.mpr rfl⟩
  · intro w hid hnow httl
    have he : joinExpires w.now w.expiresTime = 1700000000 := by
      unfold joinExpires
      rw [hnow, httl, h]
    simp only [joinMessage, hid, he, Payload.joinReq.injEq]
    rw [hb.symm]
    unfold joinExpires
    rw [h]

/-- Witness for C4 at `now = 1699999900`, `ttl = 100`. -/
theorem C4_join_signature_witness :
    joinSignedBytes "Qm123" (joinExpires 1699999900 100) = "Qm123.1700000000" :=
  (C4_join_signature 1699999900 100 (by decide)).1

/-- Under an always-successful encoder, the heartbeat loop sends every
tick, and the encode trace extends by exactly the built envelopes. -/
theorem heartBeatLoop_ok (fuel : Nat) (w : World)
    (hok : ∀ n, w.encodeOk n = true) :
    ∀ (ticks : List BandwidthTotals) (st : St),
      ∃ st2, heartBeatLoop fuel w st ticks = some st2 ∧
        st2.encoded = st.encoded ++ ticks.map heartBeatMessage := by
  intro ticks
  induction ticks with
  | nil => intro st; exact ⟨st, rfl, by simp⟩
  | cons t rest ih =>
      intro st
      obtain ⟨st2, hrun, henc⟩ :=
        ih { st with nEncode := st.nEncode + 1,
                     encoded := st.encoded ++ [heartBeatMessage t] }
      refine ⟨st2, ?_, ?_⟩
      · simp [heartBeatLoop, SendQuicMsg, sendStep, hok st.nEncode, hrun]
      · rw [henc]
        simp

/-- C7: each heartbeat tick emits an envelope carrying exactly the
bandwidth counters read at that tick; in particular, for the synthetic
counter sequence `(0,100,50,10,5)` then `(0,150,70,12,6)`, the two
consecutive envelopes carry exactly those Stats values in order. -/
theorem C7_heartbeat_fidelity (fuel : Nat) (w : World) (st : St)
    (hok : ∀ n, w.encodeOk n = true) :
    (∀ ticks, ∃ st2, heartBeatLoop fuel w st ticks = some st2 ∧
        st2.encoded = st.encoded ++ ticks.map heartBeatMessage) ∧
    ([⟨100, 50, 10, 5⟩, ⟨150, 70, 12, 6⟩] : List BandwidthTotals).map heartBeatMessage =
      [{ Service := HeartBeatService,
         Data := .heartBeat { Stats := { Storage := 0, In := 100, Out := 50, Ingress := 10, Egress := 5 } } },
       { Service := HeartBeatService,
         Data := .heartBeat { Stats := { Storage := 0, In := 150, Out := 70, Ingress := 12, Egress := 6 } } }] :=
  ⟨fun ticks => heartBeatLoop_ok fuel w hok ticks st, rfl⟩

/-- Directories recorded in the state are never removed by the
certificate-persistence loop. -/
theorem writeCertsLoop_dirs_mono (w : World) (jr : JoinRes) :
    ∀ (l : List (String × Cert)) (st : St) (d : Path),
      d ∈ st.dirs → d ∈ (writeCertsLoop w jr st l).1.dirs := by
  intro l
  induction l with
  | nil => intro st d hd; simpa [writeCertsLoop] using hd
  | cons p rest ih =>
      intro st d hd
      obtain ⟨ip, cert⟩ := p
      by_cases hm : w.mkdirOk st.nMkdir
      · by_cases h1 : w.writeOk st.nWrite
        · simp only [writeCertsLoop, hm, h1, if_true]
          exact ih _ d (by simp [hd])
        · simp [writeCertsLoop, hm, h1, hd]
      · simp [writeCertsLoop, hm, hd]

/-- Frame property of the persistence loop under a fault-free
filesystem: a recorded file whose path is none of the paths the loop
will write keeps its contents. -/
theorem writeCertsLoop_lookup_frame (w : World) (jr : JoinRes)
    (hm : ∀ n, w.mkdirOk n = true) (hw : ∀ n, w.writeOk n = true) :
    ∀ (l : List (String × Cert)) (st : St) (q : Path) (v : String),
      fsLookup st.fs q = some v →
      (∀ p ∈ l, q ≠ certDir w.configRoot p.1 ++ ["private.pem"] ∧
                q ≠ certDir w.configRoot p.1 ++ ["cert.pem"]) →
      fsLookup (writeCertsLoop w jr st l).1.fs q = some v := by
  intro l
  induction l with
  | nil => intro st q v hv _; simpa [writeCertsLoop] using hv
  | cons p rest ih =>
      intro st q v hv hq
      obtain ⟨ip, cert⟩ := p
      obtain ⟨hq1, hq2⟩ := hq (ip, cert) (List.mem_cons_self _ _)
      simp only [writeCertsLoop, hm, hw, if_true]
      apply ih
      · simp only [fsLookup]
        rw [if_neg fun hcontra => hq2 hcontra.symm,
            if_neg fun hcontra => hq1 hcontra.symm]
        exact hv
      · intro p2 hp2
        exact hq p2 (List.mem_cons_of_mem _ hp2)

/-- C3: with a fault-free filesystem, join processing of a successful
Join Response writes, for every `(ip, cert)` entry, the directory
`<config_root>/certs/<ip>` containing `private.pem` with the private-key
PEM and `cert.pem` with the certificate PEM, byte for byte. -/
theorem C3_cert_persistence (w : World) (jr : JoinRes)
    (hm : ∀ n, w.mkdirOk n = true) (hw : ∀ n, w.writeOk n = true) :
    ∀ (l : List (String × Cert)) (st : St), (l.map Prod.fst).Nodup →
      (writeCertsLoop w jr st l).2 = JoinResult.ok jr ∧
      ∀ p ∈ l,
        certDir w.configRoot p.1 ∈ (writeCertsLoop w jr st l).1.dirs ∧
        fsLookup (writeCertsLoop w jr st l).1.fs
          (certDir w.configRoot p.1 ++ ["private.pem"]) = some p.2.Pems.Privkey ∧
        fsLookup (writeCertsLoop w jr st l).1.fs
          (certDir w.configRoot p.1 ++ ["cert.pem"]) = some p.2.Pems.Cert := by
  intro l
  induction l with
  | nil => intro st _; exact ⟨rfl, by simp⟩
  | cons p rest ih =>
      intro st hnd
      obtain ⟨ip, cert⟩ := p
      rw [List.map_cons, List.nodup_cons] at hnd
      obtain ⟨hip, hnd2⟩ := hnd
      have hun : writeCertsLoop w jr st ((ip, cert) :: rest) =
          writeCertsLoop w jr
            { st with
              nMkdir := st.nMkdir + 1,
              nWrite := st.nWrite + 2,
              dirs := st.dirs ++ [certDir w.configRoot ip],
              fs := (certDir w.configRoot ip ++ ["cert.pem"], cert.Pems.Cert) ::
                    (certDir w.configRoot ip ++ ["private.pem"], cert.Pems.Privkey) ::
                    st.fs } rest := by
        simp [writeCertsLoop, hm, hw]
      rw [hun]
      refine ⟨(ih _ hnd2).1, ?_⟩
      intro p2 hp2
      rcases List.mem_cons.mp hp2 with heq | hmem
      · subst heq
        refine ⟨?_, ?_, ?_⟩
        · exact writeCertsLoop_dirs_mono w jr rest _ _ (by simp)
        · apply writeCertsLoop_lookup_frame w jr hm hw
          · simp [fsLookup, certDir]
          · intro p3 hp3
            have hne : ip ≠ p3.1 := by
              intro hcontra
              apply hip
              rw [hcontra]
              exact List.mem_map.mpr ⟨p3, hp3, rfl⟩
            constructor
            · simp [certDir, hne]
            · simp [certDir]
        · apply writeCertsLoop_lookup_frame w jr hm hw
          · simp [fsLookup, certDir]
          · intro p3 hp3
            have hne : ip ≠ p3.1 := by
              intro hcontra
              apply hip
              rw [hcontra]
              exact List.mem_map.mpr ⟨p3, hp3, rfl⟩
            constructor
            · simp [certDir]
            · simp [certDir, hne]
      · exact (ih _ hnd2).2 p2 hmem

/-- Witness for C3: the two-entry response for `1.2.3.4` and `5.6.7.8`
persists both directories with both files, byte-identical payloads. -/
theorem C3_cert_persistence_witness :
    (writeCertsLoop wBase { Success := true, Message := "", Certs := [] } St.init
        [("1.2.3.4", { Pems := { Privkey := "PK4", Cert := "C4" } }),
         ("5.6.7.8", { Pems := { Privkey := "PK8", Cert := "C8" } })]).2 =
      JoinResult.ok { Success := true, Message := "", Certs := [] } ∧
    ∀ p ∈ [(("1.2.3.4" : String), ({ Pems := { Privkey := "PK4", Cert := "C4" } } : Cert)),
           ("5.6.7.8", { Pems := { Privkey := "PK8", Cert := "C8" } })],
      certDir wBase.configRoot p.1 ∈
        (writeCertsLoop wBase { Success := true, Message := "", Certs := [] } St.init
          [("1.2.3.4", { Pems := { Privkey := "PK4", Cert := "C4" } }),
           ("5.6.7.8", { Pems := { Privkey := "PK8", Cert := "C8" } })]).1.dirs ∧
      fsLookup (writeCertsLoop wBase { Success := true, Message := "", Certs := [] } St.init
          [("1.2.3.4", { Pems := { Privkey := "PK4", Cert := "C4" } }),
           ("5.6.7.8", { Pems := { Privkey := "PK8", Cert := "C8" } })]).1.fs
        (certDir wBase.configRoot p.1 ++ ["private.pem"]) = some p.2.Pems.Privkey ∧
      fsLookup (writeCertsLoop wBase { Success := true, Message := "", Certs := [] } St.init
          [("1.2.3.4", { Pems := { Privkey := "PK4", Cert := "C4" } }),
           ("5.6.7.8", { Pems := { Privkey := "PK8", Cert := "C8" } })]).1.fs
        (certDir wBase.configRoot p.1 ++ ["cert.pem"]) = some p.2.Pems.Cert :=
  C3_cert_persistence wBase { Success := true, Message := "", Certs := [] }
    (fun _ => rfl) (fun _ => rfl) _ St.init (by decide)

/-- The single certificate entry used by the C2 scenarios. -/
def certC2 : Cert :=
  { Pems := { Privkey := "PRIV", Cert := "CERT" } }

/-- A successful Join Response carrying one certificate entry. -/
def jrC2 : JoinRes :=
  { Success := true, Message := "", Certs := [("1.2.3.4", certC2)] }

/-- Oracle where every file write fails, reads yield the one-entry
successful Join Response, and everything else succeeds. -/
def wC2 : World :=
  { wBase with
    readMsg := fun _ => some { Service := JoinService, Data := .joinRes jrC2 },
    writeOk := fun _ => false }

/-- Oracle where only the first file write succeeds (so `private.pem`
is written and the following `cert.pem` write fails). -/
def wCertW2 : World :=
  { wBase with
    readMsg := fun _ => some { Service := JoinService, Data := .joinRes jrC2 },
    writeOk := fun n => decide (n = 0) }

/-- C2 counterexample: a failure writing the first certificate file
(`private.pem`) is fatal — the loop stops with the error, the second
write is never attempted (only one write occurred), nothing was
persisted, and nothing was logged; the enclosing `JoinLuanet` returns
that error, aborting the join.  This contradicts the claim that
certificate write failures are logged, non-fatal, and attempted
independently. -/
theorem C2_counterexample :
    (writeCertsLoop wC2 jrC2 St.init jrC2.Certs).2 =
      JoinResult.err "write private.pem error" ∧
    (writeCertsLoop wC2 jrC2 St.init jrC2.Certs).1.fs = [] ∧
    (writeCertsLoop wC2 jrC2 St.init jrC2.Certs).1.logs = [] ∧
    (writeCertsLoop wC2 jrC2 St.init jrC2.Certs).1.nWrite = 1 ∧
    (JoinLuanet 1 wC2 St.init).map Prod.snd =
      some (JoinResult.err "write private.pem error") := by
  refine ⟨rfl, rfl, rfl, rfl, ?_⟩
  decide

/-- C2 as amended: per certificate entry the two writes are sequential
and dependent — if the `private.pem` write succeeds and the `cert.pem`
write fails, the failure is silently ignored (no log), the private key
file is kept, and the loop continues with the remaining entries; but if
the `private.pem` write fails, the loop aborts with the error (nothing
logged, `cert.pem` never attempted). -/
theorem C2_cert_write_failure (w : World) (jr : JoinRes) (st : St)
    (ip : String) (cert : Cert) (rest : List (String × Cert))
    (hm : w.mkdirOk st.nMkdir = true) :
    (w.writeOk st.nWrite = true → w.writeOk (st.nWrite + 1) = false →
      writeCertsLoop w jr st ((ip, cert) :: rest) =
        writeCertsLoop w jr
          { st with
            nMkdir := st.nMkdir + 1,
            nWrite := st.nWrite + 2,
            dirs := st.dirs ++ [certDir w.configRoot ip],
            fs := (certDir w.configRoot ip ++ ["private.pem"], cert.Pems.Privkey) :: st.fs }
          rest) ∧
    (w.writeOk st.nWrite = false →
      writeCertsLoop w jr st ((ip, cert) :: rest) =
        ({ st with
           nMkdir := st.nMkdir + 1,
           nWrite := st.nWrite + 1,
           dirs := st.dirs ++ [certDir w.configRoot ip] },
         JoinResult.err "write private.pem error")) := by
  constructor
  · intro h1 h2
    simp [writeCertsLoop, hm, h1, h2]
  · intro h1
    simp [writeCertsLoop, hm, h1]

/-- Witness for C2 as amended: concrete run where `private.pem`
succeeds and `cert.pem` fails. -/
theorem C2_cert_write_failure_witness :
    writeCertsLoop wCertW2 jrC2 St.init [("1.2.3.4", certC2)] =
      writeCertsLoop wCertW2 jrC2
        { St.init with
          nMkdir := St.init.nMkdir + 1,
          nWrite := St.init.nWrite + 2,
          dirs := St.init.dirs ++ [certDir wCertW2.configRoot "1.2.3.4"],
          fs := (certDir wCertW2.configRoot "1.2.3.4" ++ ["private.pem"],
                 certC2.Pems.Privkey) :: St.init.fs }
        [] :=
  (C2_cert_write_failure wCertW2 jrC2 St.init "1.2.3.4" certC2 [] rfl).1 rfl rfl

/-- The state reached by a join attempt whose pre-steps and join-request
send all succeed, just before the response is read: counters bumped,
the stream swapped to the freshly opened one, the join request encoded. -/
def joinPreSt (w : World) (st : St) : St :=
  { st with
    joins := st.joins + 1,
    nConfig := st.nConfig + 1,
    nDial := st.nDial + 1,
    nOpen := st.nOpen + 1,
    nextStream := st.nextStream + 1,
    nSign := st.nSign + 1,
    stream := some st.nextStream,
    nEncode := st.nEncode + 1,
    encoded := st.encoded ++ [joinMessage w] }

/-- A join attempt whose own join-request send succeeds (the embedded
encode at the current counter works) completes without invoking the
rejoin continuation: it returns, bumps the join count by exactly one,
encodes at most the fresh Join Request, and only appends to the log. -/
theorem joinAttempt_encodeOk (rejoin : St → Option St) (w : World) (st : St)
    (h : w.encodeOk st.nEncode = true) :
    ∃ st2 r, joinAttempt rejoin w st = some (st2, r) ∧
      st2.joins = st.joins + 1 ∧
      (st2.encoded = st.encoded ∨ st2.encoded = st.encoded ++ [joinMessage w]) ∧
      ∃ tail, st2.logs = st.logs ++ tail := by
  by_cases hc : w.configOk st.nConfig
  case neg =>
    refine ⟨{ st with nConfig := st.nConfig + 1, joins := st.joins + 1 },
      .err "config error", ?_, by simp, Or.inl (by simp), [], by simp⟩
    simp [joinAttempt, hc]
  by_cases hd : w.dialOk st.nDial
  case neg =>
    refine ⟨{ st with
        nConfig := st.nConfig + 1
        nDial := st.nDial + 1
        joins := st.joins + 1 },
      .err "dial error", ?_, by simp, Or.inl (by simp), [], by simp⟩
    simp [joinAttempt, hc, hd]
  by_cases ho : w.openOk st.nOpen
  case neg =>
    refine ⟨{ st with
        nConfig := st.nConfig + 1
        nDial := st.nDial + 1
        nOpen := st.nOpen + 1
        nextStream := st.nextStream + 1
        joins := st.joins + 1 },
      .err "open stream error", ?_, by simp, Or.inl (by simp), [], by simp⟩
    simp [joinAttempt, hc, hd, ho]
  by_cases hs : w.signOk st.nSign
  case neg =>
    refine ⟨{ st with
        nConfig := st.nConfig + 1
        nDial := st.nDial + 1
        nOpen := st.nOpen + 1
        nextStream := st.nextStream + 1
        nSign := st.nSign + 1
        joins := st.joins + 1 },
      .err "sign error", ?_, by simp, Or.inl (by simp), [], by simp⟩
    simp [joinAttempt, hc, hd, ho, hs]
  have hread := ReadQuicMsg_frame w (joinPreSt w st)
  cases hr : w.readMsg st.nRead with
  | none =>
      refine ⟨(ReadQuicMsg w (joinPreSt w st)).1, .panicked, ?_, ?_, ?_, ?_⟩
      · simp [joinAttempt, hc, hd, ho, hs, sendStep, h, ReadQuicMsg, joinPreSt,
          hr, Proto.zero]
      · rw [hread.1]; simp [joinPreSt]
      · refine Or.inr ?_
        rw [hread.2.1]; simp [joinPreSt]
      · obtain ⟨tail, htail⟩ := hread.2.2.2.2
        exact ⟨tail, by rw [htail]; simp [joinPreSt]⟩
  | some m =>
      have hmain : ∀ r : JoinResult,
          joinAttempt rejoin w st = some ((ReadQuicMsg w (joinPreSt w st)).1, r) →
          ∃ st2 r2, joinAttempt rejoin w st = some (st2, r2) ∧
            st2.joins = st.joins + 1 ∧
            (st2.encoded = st.encoded ∨ st2.encoded = st.encoded ++ [joinMessage w]) ∧
            ∃ tail, st2.logs = st.logs ++ tail := by
        intro r hstep
        refine ⟨(ReadQuicMsg w (joinPreSt w st)).1, r, hstep, ?_, ?_, ?_⟩
        · rw [hread.1]; simp [joinPreSt]
        · refine Or.inr ?_
          rw [hread.2.1]; simp [joinPreSt]
        · obtain ⟨tail, htail⟩ := hread.2.2.2.2
          exact ⟨tail, by rw [htail]; simp [joinPreSt]⟩
      cases hm : m.Data with
      | nil =>
          refine hmain .panicked ?_
          simp [joinAttempt, hc, hd, ho, hs, sendStep, h, ReadQuicMsg, joinPreSt,
            hr, hm]
      | joinReq q =>
          refine hmain .panicked ?_
          simp [joinAttempt, hc, hd, ho, hs, sendStep, h, ReadQuicMsg, joinPreSt,
            hr, hm]
      | heartBeat q =>
          refine hmain .panicked ?_
          simp [joinAttempt, hc, hd, ho, hs, sendStep, h, ReadQuicMsg, joinPreSt,
            hr, hm]
      | joinRes jr =>
          cases hsucc : jr.Success with
          | false =>
              refine hmain (.err ("Failed to join lua network: " ++ jr.Message)) ?_
              simp [joinAttempt, hc, hd, ho, hs, sendStep, h, ReadQuicMsg, joinPreSt,
                hr, hm, hsucc]
          | true =>
              have hwframe :=
                writeCertsLoop_frame w jr jr.Certs (ReadQuicMsg w (joinPreSt w st)).1
              refine ⟨(writeCertsLoop w jr (ReadQuicMsg w (joinPreSt w st)).1 jr.Certs).1,
                (writeCertsLoop w jr (ReadQuicMsg w (joinPreSt w st)).1 jr.Certs).2,
                ?_, ?_, ?_, ?_⟩
              · simp [joinAttempt, hc, hd, ho, hs, sendStep, h, ReadQuicMsg, joinPreSt,
                  hr, hm, hsucc]
              · rw [hwframe.1, hread.1]; simp [joinPreSt]
              · refine Or.inr ?_
                rw [hwframe.2.1, hread.2.1]; simp [joinPreSt]
              · obtain ⟨tail, htail⟩ := hread.2.2.2.2
                exact ⟨tail, by rw [hwframe.2.2.1, htail]; simp [joinPreSt]⟩

/-- The certificate-persistence loop never produces the panic marker:
its outcomes are only `ok` (all entries processed) or `err` (a mkdir or
private-key write failed). -/
theorem writeCertsLoop_ne_panicked (w : World) (jr : JoinRes) :
    ∀ (l : List (String × Cert)) (st : St),
      (writeCertsLoop w jr st l).2 ≠ JoinResult.panicked := by
  intro l
  induction l with
  | nil => intro st; simp [writeCertsLoop]
  | cons p rest ih =>
      intro st
      obtain ⟨ip, cert⟩ := p
      by_cases hm : w.mkdirOk st.nMkdir
      · by_cases h1 : w.writeOk st.nWrite
        · simpa [writeCertsLoop, hm, h1] using ih _
        · simp [writeCertsLoop, hm, h1]
      · simp [writeCertsLoop, hm]

/-- A join attempt whose own join-request send succeeds and whose
response read decodes to a `JoinRes` payload never hits the
`msg.Data.(proto.JoinRes)` type-assertion panic: its result is `ok` or
`err`, never the `panicked` marker. -/
theorem joinAttempt_no_panic (rejoin : St → Option St) (w : World) (st : St)
    (h : w.encodeOk st.nEncode = true)
    (hread : ∃ m jr, w.readMsg st.nRead = some m ∧ m.Data = Payload.joinRes jr) :
    ∀ st2 r, joinAttempt rejoin w st = some (st2, r) →
      r ≠ JoinResult.panicked := by
  obtain ⟨m, jr, hm, hdata⟩ := hread
  intro st2 r hstep hpanic
  subst hpanic
  by_cases hc : w.configOk st.nConfig
  case neg => simp [joinAttempt, hc] at hstep
  by_cases hdial : w.dialOk st.nDial
  case neg => simp [joinAttempt, hc, hdial] at hstep
  by_cases ho : w.openOk st.nOpen
  case neg => simp [joinAttempt, hc, hdial, ho] at hstep
  by_cases hs : w.signOk st.nSign
  case neg => simp [joinAttempt, hc, hdial, ho, hs] at hstep
  cases hsucc : jr.Success with
  | false =>
      simp [joinAttempt, hc, hdial, ho, hs, sendStep, h, ReadQuicMsg, hm, hdata,
        hsucc] at hstep
  | true =>
      simp [joinAttempt, hc, hdial, ho, hs, sendStep, h, ReadQuicMsg, hm, hdata,
        hsucc] at hstep
      exact writeCertsLoop_ne_panicked w jr jr.Certs _ (congrArg Prod.snd hstep)

/-- C1 as amended: when a send fails, the rejoin can deliver its own
join request, and the rejoin's response read decodes to a `JoinRes`
payload (in Go any other read outcome panics at the
`msg.Data.(proto.JoinRes)` type assertion instead of returning), the
failure is logged and exactly one `JoinLuanet` call occurs; the
original envelope is never re-encoded — at most the fresh Join Request
is additionally handed to the encoder — and `SendQuicMsg` returns
normally (it has no error channel, so a join failure cannot propagate
to its caller).  The rejoin's outcome in this domain is never the
panic marker. -/
theorem C1_send_failure_rejoin (fuel : Nat) (w : World) (st : St) (msg : Proto)
    (h0 : w.encodeOk st.nEncode = false)
    (h1 : w.encodeOk (st.nEncode + 1) = true)
    (hread : ∃ m jr, w.readMsg st.nRead = some m ∧ m.Data = Payload.joinRes jr) :
    (∃ st2, SendQuicMsg (fuel + 1) w st msg = some st2 ∧
      st2.joins = st.joins + 1 ∧
      (st2.encoded = st.encoded ++ [msg] ∨
        st2.encoded = (st.encoded ++ [msg]) ++ [joinMessage w]) ∧
      ∃ tail, st2.logs = (st.logs ++ [sendFailLog]) ++ tail) ∧
    ∀ st3 r, JoinLuanet (fuel + 1) w (sendFailSt st msg) = some (st3, r) →
      r ≠ JoinResult.panicked := by
  constructor
  · obtain ⟨st2, r, hjoin, hjoins, henc, hlogs⟩ :=
      joinAttempt_encodeOk (fun s => (JoinLuanet fuel w s).map Prod.fst) w
        (sendFailSt st msg) (by simpa [sendFailSt] using h1)
    refine ⟨st2, ?_, ?_, ?_, ?_⟩
    · show sendStep _ w st msg = some st2
      simp only [sendStep, h0, Bool.false_eq_true, if_false]
      show (JoinLuanet (fuel + 1) w (sendFailSt st msg)).map Prod.fst = some st2
      rw [JoinLuanet, hjoin]
      rfl
    · simpa [sendFailSt] using hjoins
    · simpa [sendFailSt] using henc
    · simpa [sendFailSt] using hlogs
  · intro st3 r hjl
    rw [JoinLuanet] at hjl
    exact joinAttempt_no_panic _ w (sendFailSt st msg)
      (by simpa [sendFailSt] using h1) (by simpa [sendFailSt] using hread)
      st3 r hjl

/-- Oracle whose first encode fails and whose later encodes succeed. -/
def wOneEncodeFail : World :=
  { wBase with encodeOk := fun n => decide (1 ≤ n) }

/-- Witness for C1 as amended: one failed send in a world where the
rejoin succeeds and the response decodes to a Join Response. -/
theorem C1_send_failure_rejoin_witness :
    ∃ st2, SendQuicMsg 1 wOneEncodeFail St.init env0 = some st2 ∧
      st2.joins = St.init.joins + 1 ∧
      (st2.encoded = St.init.encoded ++ [env0] ∨
        st2.encoded = (St.init.encoded ++ [env0]) ++ [joinMessage wOneEncodeFail]) ∧
      ∃ tail, st2.logs = (St.init.logs ++ [sendFailLog]) ++ tail :=
  (C1_send_failure_rejoin 0 wOneEncodeFail St.init env0 rfl rfl
    ⟨{ Service := JoinService,
       Data := .joinRes { Success := true, Message := "", Certs := [] } },
     { Success := true, Message := "", Certs := [] }, rfl, rfl⟩).1

/-- C1 counterexample: in an oracle whose first two encodes fail, one
failed application send triggers two `JoinLuanet` calls (the rejoin
itself fails to send its join request and recurses), refuting "exactly
one join call"; and in an oracle where the rejoin fails at the dial
step, `SendQuicMsg` still returns normally — its result is exactly the
join outcome with the error component discarded, so the join error does
not propagate to the caller. -/
theorem C1_counterexample :
    (SendQuicMsg 2 wTwoEncodeFail St.init env0).map St.joins = some 2 ∧
    SendQuicMsg 1 wDialFail St.init env0 =
      (JoinLuanet 1 wDialFail (sendFailSt St.init env0)).map Prod.fst ∧
    (JoinLuanet 1 wDialFail (sendFailSt St.init env0)).map Prod.snd =
      some (JoinResult.err "dial error") := by
  refine ⟨by decide, rfl, by decide⟩

/-- C10: in a join attempt that reaches the response and is rejected by
the coordinator (`Success = false`), `JoinLuanet` returns the
authentication error, but the current session stream has already been
swapped to the stream opened by this attempt — the pre-join stream is
not restored. -/
theorem C10_stream_swapped_before_response (fuel : Nat) (w : World) (st : St)
    (hc : w.configOk st.nConfig = true) (hd : w.dialOk st.nDial = true)
    (ho : w.openOk st.nOpen = true) (hs : w.signOk st.nSign = true)
    (he : w.encodeOk st.nEncode = true)
    (m : Proto) (jr : JoinRes) (hr : w.readMsg st.nRead = some m)
    (hm2 : m.Data = Payload.joinRes jr) (hf : jr.Success = false)
    (hstream : st.stream ≠ some st.nextStream) :
    ∃ st2, JoinLuanet (fuel + 1) w st =
        some (st2, JoinResult.err ("Failed to join lua network: " ++ jr.Message)) ∧
      st2.stream = some st.nextStream ∧ st2.stream ≠ st.stream := by
  refine ⟨(ReadQuicMsg w (joinPreSt w st)).1, ?_, ?_, ?_⟩
  · simp [JoinLuanet, joinAttempt, hc, hd, ho, hs, sendStep, he, ReadQuicMsg,
      joinPreSt, hr, hm2, hf]
  · rw [(ReadQuicMsg_frame w (joinPreSt w st)).2.2.1]
    simp [joinPreSt]
  · rw [(ReadQuicMsg_frame w (joinPreSt w st)).2.2.1]
    simp only [joinPreSt]
    exact fun hcontra => hstream hcontra.symm

/-- Oracle where the coordinator rejects the join request. -/
def wAuthFail : World :=
  { wBase with
    readMsg := fun _ => some
      { Service := JoinService,
        Data := .joinRes { Success := false, Message := "denied", Certs := [] } } }

/-- Witness for C10: concrete rejected join from the fresh state. -/
theorem C10_stream_swapped_before_response_witness :
    ∃ st2, JoinLuanet 1 wAuthFail St.init =
        some (st2, JoinResult.err ("Failed to join lua network: " ++ "denied")) ∧
      st2.stream = some St.init.nextStream ∧ st2.stream ≠ St.init.stream :=
  C10_stream_swapped_before_response 0 wAuthFail St.init rfl rfl rfl rfl rfl
    _ _ rfl rfl rfl (by decide)

/-- Witness for C7: run two ticks of the synthetic sequence from the
fresh state in the benign environment. -/
theorem C7_heartbeat_fidelity_witness :
    ∃ st2, heartBeatLoop 1 wBase St.init
        ([⟨100, 50, 10, 5⟩, ⟨150, 70, 12, 6⟩] : List BandwidthTotals) = some st2 ∧
      st2.encoded = St.init.encoded ++
        ([⟨100, 50, 10, 5⟩, ⟨150, 70, 12, 6⟩] : List BandwidthTotals).map heartBeatMessage :=
  (C7_heartbeat_fidelity 1 wBase St.init (fun _ => rfl)).1 _

end Luanet
